import Mathlib

/-!
Verification development for the native interop dispatch layer of the
steamAchievementUnlocker repository.

The definitions below are a shallow embedding of the Python sources
`src/steam_client_achievements.py` (session lifecycle, stats handshake,
achievement writes, batch orchestration) and `src/main.py` (inventory
fetcher and the binary schema / protection probe).  External behaviour
(filesystem probes, native exports, native call results, raised native
errors, backend readiness) is supplied by an oracle record `Sys`; the
embedded functions return their results together with a trace of the
externally observable events they perform.
-/

namespace SteamAU

/-- Externally observable events of one process run: environment-marker
writes, native library load attempts, session construction and the end of
a session cleanup, and the individual native calls. -/
inductive Ev : Type where
  | envSet (appId : String)
  | envClear
  | loadTry (p : List String)
  | construct (appId : String)
  | closed
  | requestApi (sid : String)
  | requestVt (sid : String)
  | runCallbacks
  | setApi (a : String)
  | clearApi (a : String)
  | setVt (a : String)
  | clearVt (a : String)
  | store
  | shutdown
  | releasePipe
  deriving DecidableEq, Repr

/-- Oracle for everything outside the Python code itself: which paths
exist and load, the process layout, which exports the loaded module
provides, the results of each native call, and whether the native
cleanup calls raise.  `readyAt` is the poll index at which the backend
would first signal stats readiness (`none` = the backend never becomes
ready); the source code contains no readiness check, so the embedded
functions never consult this field. -/
structure Sys where
  fsExists : List String → Bool
  fsLoad : List String → Bool
  cwd : List String
  frozen : Bool
  bundleDir : List String
  exeDir : List String
  scriptDir : List String
  steamPath : Option (List String)
  hasExport : String → Bool
  initSafeOk : Bool
  apiStatsPtr : Bool
  createClient018 : Bool
  createClient017 : Bool
  pipeVal : Nat
  userVal : Nat
  statsIfaceOk : Bool
  requestApiHandle : Nat
  vtRequestOk : Bool
  polls : Nat
  readyAt : Option Nat
  setResult : String → Bool
  clearResult : String → Bool
  storeResult : Bool
  shutdownRaises : Bool
  releaseRaises : Bool

/-- The mutable per-session state of `SteamAchievementManager`:
which bound function attributes are present, the pipe/client handles,
and the `user_stats_received` flag.  (`steam_client_achievements.py`,
`__init__` lines 28-36 plus the attributes set by
`_setup_steam_api_functions`, `_setup_steam_client_vtable` and
`_setup_user_stats_interface`.) -/
structure Manager where
  appId : String
  hasRequestApi : Bool := false
  hasRunCallbacks : Bool := false
  hasSetApi : Bool := false
  hasClearApi : Bool := false
  hasStoreApi : Bool := false
  hasShutdownApi : Bool := false
  hasVt : Bool := false
  hasReleaseFunc : Bool := false
  steamClientSet : Bool := false
  steamPipe : Nat := 0
  userStatsReceived : Bool := false
  deriving DecidableEq, Repr

def emptyMan (appId : String) : Manager := { appId := appId }

/-- Model of `SteamAchievementManager.cleanup` (lines 536-563).  Returns the new
environment marker, the event trace (ending in `.closed`, marking that
cleanup returned), and whether an internal error was swallowed by the
`except` clause.  Faithful points: the shutdown call happens whenever
the `_shutdown_api` attribute is set; the pipe release happens when
pipe and client are truthy and the release function attribute exists;
the environment marker is deleted only if still present; any raise in
an earlier step skips the later steps (including the marker deletion)
and is swallowed. -/
def cleanup (sys : Sys) (m : Manager) (env : Option String) :
    Option String × List Ev × Bool :=
  let t1 : List Ev := if m.hasShutdownApi then [Ev.shutdown] else []
  if m.hasShutdownApi && sys.shutdownRaises then
    (env, t1 ++ [Ev.closed], true)
  else
    let doRel := (m.steamPipe != 0) && m.steamClientSet && m.hasReleaseFunc
    let t2 := t1 ++ (if doRel then [Ev.releasePipe] else [])
    if doRel && sys.releaseRaises then
      (env, t2 ++ [Ev.closed], true)
    else
      match env with
      | some _ => (none, t2 ++ [Ev.envClear, Ev.closed], false)
      | none => (none, t2 ++ [Ev.closed], false)

/-- Model of `SteamAchievementManager.request_user_stats` (lines 411-457).
In the flat-export branch a zero call handle raises (caught, `False`);
otherwise the callback pump runs for the whole 3-second deadline with
no readiness check at all, after which `user_stats_received` is set and
`True` is returned.  In the vtable branch a falsy request result raises
(caught, `False`); otherwise after a fixed sleep the flag is set and
`True` returned.  With no request function available a warning is
printed and the function still sets the flag and returns `True`. -/
def request_user_stats (sys : Sys) (m : Manager) (sid : String) :
    Bool × Manager × List Ev :=
  if m.hasRequestApi then
    if sys.requestApiHandle == 0 then
      (false, m, [Ev.requestApi sid])
    else
      let pump : List Ev :=
        if m.hasRunCallbacks then List.replicate sys.polls Ev.runCallbacks else []
      (true, { m with userStatsReceived := true }, Ev.requestApi sid :: pump)
  else if m.hasVt then
    if sys.vtRequestOk then
      (true, { m with userStatsReceived := true }, [Ev.requestVt sid])
    else
      (false, m, [Ev.requestVt sid])
  else
    (true, { m with userStatsReceived := true }, [])

/-- Model of `SteamAchievementManager.set_achievement` (lines 459-505).  When
`user_stats_received` is false only a warning is printed; the native
call is attempted regardless.  The flat-export branch is gated on the
set-api attribute even for clears; a missing clear function raises
(caught, `False`) without any native call. -/
def set_achievement (sys : Sys) (m : Manager) (a : String) (unlocked : Bool) :
    Bool × List Ev :=
  if m.hasSetApi then
    if unlocked then
      (sys.setResult a, [Ev.setApi a])
    else if m.hasClearApi then
      (sys.clearResult a, [Ev.clearApi a])
    else
      (false, [])
  else if m.hasVt then
    if unlocked then
      (sys.setResult a, [Ev.setVt a])
    else
      (sys.clearResult a, [Ev.clearVt a])
  else
    (false, [])

/-- Model of `SteamAchievementManager.store_stats` (lines 507-528). -/
def store_stats (sys : Sys) (m : Manager) : Bool × List Ev :=
  if m.hasStoreApi then
    (sys.storeResult, [Ev.store])
  else if m.hasVt then
    (sys.storeResult, [Ev.store])
  else
    (false, [])

/-- Model of `SteamAchievementManager.unlock_achievement` (lines 530-534):
`store_stats` is called only when `set_achievement` returned success. -/
def unlock_achievement (sys : Sys) (m : Manager) (a : String) :
    Bool × List Ev :=
  let s := set_achievement sys m a true
  if s.1 then
    let st := store_stats sys m
    (st.1, s.2 ++ st.2)
  else
    (false, s.2)

/-- The ranked DLL candidate list built in `_initialize_steam`
(lines 107-163): current working directory (three layouts), then — only
for a frozen/bundled process — the bundle directory and the directory
next to the executable, then the script directory, and finally the two
client library names inside the platform installation directory. -/
def dllCandidates (sys : Sys) (steam : List String) : List (List String) :=
  [sys.cwd ++ ["DLLs", "win64", "steam_api64.dll"],
   sys.cwd ++ ["DLLs", "steam_api64.dll"],
   sys.cwd ++ ["steam_api64.dll"]]
  ++ (if sys.frozen then
        [sys.bundleDir ++ ["DLLs", "win64", "steam_api64.dll"],
         sys.bundleDir ++ ["DLLs", "steam_api64.dll"],
         sys.bundleDir ++ ["steam_api64.dll"],
         sys.exeDir ++ ["DLLs", "win64", "steam_api64.dll"],
         sys.exeDir ++ ["DLLs", "steam_api64.dll"],
         sys.exeDir ++ ["steam_api64.dll"]]
      else [])
  ++ [sys.scriptDir ++ ["DLLs", "win64", "steam_api64.dll"],
      sys.scriptDir ++ ["DLLs", "steam_api64.dll"],
      sys.scriptDir ++ ["steam_api64.dll"]]
  ++ [steam ++ ["steamclient64.dll"], steam ++ ["steamclient.dll"]]

/-- The candidate scan of `_initialize_steam` (lines 167-188): for each
candidate in order, if it exists a load is attempted; the first
successful load wins, a failed load falls through to the next
candidate. -/
def searchDll (sys : Sys) : List (List String) → Option (List String) × List Ev
  | [] => (none, [])
  | p :: ps =>
    if sys.fsExists p then
      if sys.fsLoad p then
        (some p, [Ev.loadTry p])
      else
        let r := searchDll sys ps
        (r.1, Ev.loadTry p :: r.2)
    else
      searchDll sys ps

/-- The DLL loading step of `_initialize_steam` (lines 87-191): a cached
path from a prior successful load is tried first (no existence check,
just a load); on failure the cache is reset and the full candidate scan
runs; a successful scan result is cached.  Returns the loaded path, the
new cache, and the load-attempt trace. -/
def loadDll (sys : Sys) (steam : List String) (cache : Option (List String)) :
    Option (List String) × Option (List String) × List Ev :=
  match cache with
  | some c =>
    if sys.fsLoad c then
      (some c, some c, [Ev.loadTry c])
    else
      let r := searchDll sys (dllCandidates sys steam)
      (r.1, r.1, Ev.loadTry c :: r.2)
  | none =>
    let r := searchDll sys (dllCandidates sys steam)
    (r.1, r.1, r.2)

/-- The attribute flags bound by `_setup_steam_api_functions`
(lines 322-372): each flat-export function is looked up with a default
of `None`, so presence is exactly export presence. -/
def setupApiFlags (sys : Sys) (m : Manager) : Manager :=
  { m with
    hasRequestApi := sys.hasExport "SteamAPI_ISteamUserStats_RequestUserStats",
    hasSetApi := sys.hasExport "SteamAPI_ISteamUserStats_SetAchievement",
    hasClearApi := sys.hasExport "SteamAPI_ISteamUserStats_ClearAchievement",
    hasStoreApi := sys.hasExport "SteamAPI_ISteamUserStats_StoreStats",
    hasRunCallbacks := sys.hasExport "SteamAPI_RunCallbacks",
    hasShutdownApi := sys.hasExport "SteamAPI_Shutdown" }

/-- The flat-export branch of `_initialize_steam` (lines 193-219).
Second component: `some true` = initialized and returned,
`some false` = raise to the outer handler, `none` = an `AttributeError`
(missing export) fell through to the client-interface branch. -/
def apiApproach (sys : Sys) (m : Manager) : Manager × Option Bool :=
  if sys.hasExport "SteamAPI_InitSafe" then
    if sys.initSafeOk then
      if sys.hasExport "SteamAPI_SteamUserStats_v013" then
        if sys.apiStatsPtr then
          (setupApiFlags sys m, some true)
        else
          (m, some false)
      else
        (m, none)
    else
      (m, some false)
  else
    (m, none)

/-- The client-interface branch of `_initialize_steam` (lines 221-268):
resolve `CreateInterface` (missing export raises), create the client
via version 018 falling back to 017, set up the client vtable (which
binds the pipe-release function), create the pipe, connect the user,
bind the stats interface, set up the stats vtable.  The returned
manager reflects exactly the attributes bound before the first failing
step; the Bool is success. -/
def clientApproach (sys : Sys) (m : Manager) : Manager × Bool :=
  if sys.hasExport "CreateInterface" then
    if sys.createClient018 || sys.createClient017 then
      let m := { m with steamClientSet := true, hasReleaseFunc := true }
      if sys.pipeVal != 0 then
        let m := { m with steamPipe := sys.pipeVal }
        if sys.userVal != 0 then
          if sys.statsIfaceOk then
            ({ m with hasVt := true }, true)
          else
            (m, false)
        else
          (m, false)
      else
        (m, false)
    else
      (m, false)
  else
    (m, false)

/-- Result of constructing a `SteamAchievementManager`: the session
state on success, the new process-level DLL path cache, the new
environment marker, and the event trace. -/
structure IRes where
  man : Option Manager
  cache : Option (List String)
  env : Option String
  trace : List Ev
  deriving Repr

/-- Shared failure/success tail of `_initialize_steam` for the
client-interface branch. -/
def clientFinish (sys : Sys) (m0 : Manager) (cache : Option (List String))
    (lt : List Ev) (env : Option String) (appId : String) : IRes :=
  let r := clientApproach sys m0
  if r.2 then
    ⟨some r.1, cache, env, Ev.envSet appId :: lt⟩
  else
    let c := cleanup sys r.1 env
    ⟨none, cache, c.1, Ev.envSet appId :: (lt ++ c.2.1)⟩

/-- Model of the session constructor (lines 77-274) as
invoked by the constructor: sets the `SteamAppId` environment marker
first, resolves the platform installation path, loads the DLL (cached
path first), then runs the flat-export branch when the loaded path has
the flat-export file name (falling through to the client branch on a
missing export) or the client branch otherwise.  Every failure invokes
`cleanup` on the partially constructed session and reports failure. -/
def initManager (sys : Sys) (appId : String) (cache : Option (List String)) : IRes :=
  let env : Option String := some appId
  match sys.steamPath with
  | none =>
    let c := cleanup sys (emptyMan appId) env
    ⟨none, cache, c.1, Ev.envSet appId :: c.2.1⟩
  | some steam =>
    let ld := loadDll sys steam cache
    match ld.1 with
    | none =>
      let c := cleanup sys (emptyMan appId) env
      ⟨none, ld.2.1, c.1, Ev.envSet appId :: (ld.2.2 ++ c.2.1)⟩
    | some p =>
      if p.contains "steam_api64.dll" then
        let r := apiApproach sys (emptyMan appId)
        match r.2 with
        | some true => ⟨some r.1, ld.2.1, env, Ev.envSet appId :: ld.2.2⟩
        | some false =>
          let c := cleanup sys r.1 env
          ⟨none, ld.2.1, c.1, Ev.envSet appId :: (ld.2.2 ++ c.2.1)⟩
        | none => clientFinish sys r.1 ld.2.1 ld.2.2 env appId
      else
        clientFinish sys (emptyMan appId) ld.2.1 ld.2.2 env appId

/-- One record of the persisted inventory (`data.json`), as consumed by
`process_all_games` (lines 594-611): api name, achieved flag, and the
`protected` key (defaulting to false). -/
structure Ach where
  apiname : String
  achieved : Nat
  unlocktime : Nat := 0
  dispName : String := ""
  descr : String := ""
  protectedFlag : Bool := false
  deriving DecidableEq, Repr

/-- One game entry of the persisted inventory. -/
structure Game where
  appid : String
  gameName : String
  achievements : List Ach
  deriving DecidableEq, Repr

/-- Model of `locked_achievements` (line 605). -/
def lockedAchs (g : Game) : List Ach :=
  g.achievements.filter (fun a => a.achieved == 0)

/-- Model of `unlockable_achievements` (lines 606-608). -/
def unlockableAchs (g : Game) : List Ach :=
  (lockedAchs g).filter (fun a => !a.protectedFlag)

/-- The per-game unlock loop of `process_all_games` (lines 638-645). -/
def unlockLoop (sys : Sys) (m : Manager) : List Ach → Nat × List Ev
  | [] => (0, [])
  | a :: rest =>
    let u := unlock_achievement sys m a.apiname
    let r := unlockLoop sys m rest
    ((if u.1 then 1 else 0) + r.1, u.2 ++ r.2)

/-- Per-target result: new DLL cache, new environment marker, deltas of
the successful/failed/unlocked counters, event trace. -/
structure GRes where
  cache : Option (List String)
  env : Option String
  succ : Nat
  fail : Nat
  unlocked : Nat
  trace : List Ev
  deriving Repr

/-- The loop body of `process_all_games` (lines 594-668) for one game:
skip targets with no achievements or no unlockable achievement before
any session work; otherwise construct a session (a failing constructor
has already cleaned itself up), run the stats handshake, on success
unlock each eligible achievement, and always clean up in the `finally`
block. -/
def processGame (sys : Sys) (sid : String) (g : Game)
    (cache : Option (List String)) (env : Option String) : GRes :=
  if g.achievements.isEmpty then
    ⟨cache, env, 0, 0, 0, []⟩
  else if (unlockableAchs g).isEmpty then
    ⟨cache, env, 0, 0, 0, []⟩
  else
    let ir := initManager sys g.appid cache
    match ir.man with
    | none => ⟨ir.cache, ir.env, 0, 1, 0, Ev.construct g.appid :: ir.trace⟩
    | some m =>
      let rq := request_user_stats sys m sid
      if rq.1 then
        let ul := unlockLoop sys rq.2.1 (unlockableAchs g)
        let c := cleanup sys rq.2.1 ir.env
        ⟨ir.cache, c.1, 1, 0, ul.1,
          Ev.construct g.appid :: (ir.trace ++ rq.2.2 ++ ul.2 ++ c.2.1)⟩
      else
        let c := cleanup sys rq.2.1 ir.env
        ⟨ir.cache, c.1, 0, 1, 0,
          Ev.construct g.appid :: (ir.trace ++ rq.2.2 ++ c.2.1)⟩

/-- Aggregated batch summary (`process_all_games` counters). -/
structure Summary where
  succ : Nat
  fail : Nat
  unlocked : Nat
  deriving DecidableEq, Repr

/-- The iteration of `process_all_games` over the games of `data.json`,
threading the process-level DLL cache and the environment marker. -/
def runGames (sys : Sys) (sid : String) :
    List Game → Option (List String) → Option String →
    Summary × Option (List String) × Option String × List Ev
  | [], cache, env => (⟨0, 0, 0⟩, cache, env, [])
  | g :: gs, cache, env =>
    let r := processGame sys sid g cache env
    let rest := runGames sys sid gs r.cache r.env
    (⟨r.succ + rest.1.succ, r.fail + rest.1.fail, r.unlocked + rest.1.unlocked⟩,
     rest.2.1, rest.2.2.1, r.trace ++ rest.2.2.2)

/-- Model of `process_all_games` (lines 566-688) on an already-loaded inventory:
fresh process, so no cached DLL path and no environment marker. -/
def process_all_games (sys : Sys) (sid : String) (games : List Game) :
    Summary × Option (List String) × Option String × List Ev :=
  runGames sys sid games none none

/-- Byte slice `data[i : i+n]` (Python semantics: short near the end). -/
def bytesAt (data : List Nat) (i n : Nat) : List Nat :=
  (data.drop i).take n

/-- Model of the 4-byte little-endian word read at offset `i`, the 32-bit
word at offset `i` (callers guard `i + 4 < len(data)`). -/
def word32At (data : List Nat) (i : Nat) : Nat :=
  data.getD i 0 + 256 * data.getD (i + 1) 0 + 65536 * data.getD (i + 2) 0
    + 16777216 * data.getD (i + 3) 0

/-- The inner permission scan of `SteamSchemaReader._read_kv_file`
(`main.py` lines 160-170): for `i` below the check range, if the word
at `pos + i` is in `[0, 1, 2, 3]` that word is the permission and the
scan breaks; otherwise the permission keeps its initial value 0.
`fuel` is the remaining number of `i` values. -/
def permScanAux (data : List Nat) (pos : Nat) : Nat → Nat → Nat
  | _, 0 => 0
  | i, fuel + 1 =>
    if pos + i + 4 < data.length then
      let val := word32At data (pos + i)
      if val == 0 || val == 1 || val == 2 || val == 3 then
        val
      else
        permScanAux data pos (i + 1) fuel
    else
      permScanAux data pos (i + 1) fuel

/-- One position of the scan loop of `_read_kv_file` (lines 150-177):
on the 4-byte marker pattern the code sets `achievement_id = ""`,
scans for a permission value, and inserts into the accumulator only
when `achievement_id` is non-empty — which it never is, since nothing
ever assigns it. -/
def kvStep (data : List Nat) (pos : Nat) (acc : List (String × Nat)) :
    List (String × Nat) :=
  if bytesAt data pos 4 == [1, 0, 0, 0] then
    let achievement_id : String := ""
    let permission := permScanAux data pos 0 (min 100 (data.length - pos))
    if achievement_id != "" then
      (achievement_id, permission) :: acc
    else
      acc
  else
    acc

/-- Model of `SteamSchemaReader._read_kv_file` (lines 138-182): scan every
position `pos < len(data) - 20` (truncated subtraction matches
Python's negative bound giving zero iterations). -/
def read_kv_file (data : List Nat) : List (String × Nat) :=
  (List.range (data.length - 20)).foldl (fun acc pos => kvStep data pos acc) []

/-- External world of `SteamSchemaReader`: the resolved platform
installation path and the bytes of each schema file (`none` = the file
does not exist). -/
structure SchemaSys where
  steamPath : Option (List String)
  schemaBytes : List String → Option (List Nat)

/-- The schema file path for one app id (`main.py` lines 197-199). -/
def schemaFilePath (sp : List String) (appId : String) : List String :=
  sp ++ ["appcache", "stats", "UserGameStatsSchema_" ++ appId ++ ".bin"]

/-- Model of `SteamSchemaReader.is_achievement_protected` (lines 184-218) with
the schema cache as explicit state: no platform path means not
protected; a cache hit answers only when the achievement is present in
the cached schema, otherwise the file is (re)read; a missing file means
not protected; a parsed schema answers via permission bits 0-1, with
absence meaning not protected. -/
def is_achievement_protected (ss : SchemaSys)
    (cache : List (String × List (String × Nat))) (appId achId : String) :
    Bool × List (String × List (String × Nat)) :=
  match ss.steamPath with
  | none => (false, cache)
  | some sp =>
    let hit :=
      match cache.lookup appId with
      | some schema =>
        match schema.lookup achId with
        | some perm => some ((Nat.land perm 3) != 0)
        | none => none
      | none => none
    match hit with
    | some b => (b, cache)
    | none =>
      match ss.schemaBytes (schemaFilePath sp appId) with
      | none => (false, cache)
      | some data =>
        let schema := read_kv_file data
        let cache2 := (appId, schema) :: cache
        match schema.lookup achId with
        | some perm => ((Nat.land perm 3) != 0, cache2)
        | none => (false, cache2)

/-- One achievement record of the remote inventory response, as read by
`process_single_game` (`main.py` lines 298-306). -/
structure ApiAch where
  apiname : String
  achieved : Nat
  unlocktime : Nat
  dispName : String
  descr : String
  deriving DecidableEq, Repr

/-- The achievement record `process_single_game` writes into
`data.json` (lines 299-306): the `protected` key is the literal
`False`. -/
def mkAchievementData (a : ApiAch) : Ach :=
  ⟨a.apiname, a.achieved, a.unlocktime, a.dispName, a.descr, false⟩

/-! ### Concrete fixtures used by counterexamples and witnesses -/

/-- A world in which every candidate exists and loads, the flat-export
backend exposes every export, every native call succeeds — and the
backend never signals stats readiness (`readyAt = none`). -/
def sysApi : Sys :=
  { fsExists := fun _ => true,
    fsLoad := fun _ => true,
    cwd := ["C:", "app"],
    frozen := false,
    bundleDir := ["C:", "bundle"],
    exeDir := ["C:", "exe"],
    scriptDir := ["C:", "script"],
    steamPath := some ["C:", "Steam"],
    hasExport := fun _ => true,
    initSafeOk := true,
    apiStatsPtr := true,
    createClient018 := true,
    createClient017 := false,
    pipeVal := 1,
    userVal := 1,
    statsIfaceOk := true,
    requestApiHandle := 7,
    vtRequestOk := true,
    polls := 3,
    readyAt := none,
    setResult := fun _ => true,
    clearResult := fun _ => true,
    storeResult := true,
    shutdownRaises := false,
    releaseRaises := false }

/-- A target with a single locked, unprotected achievement "A". -/
def gameA : Game := ⟨"700570", "Beyond the Void", [⟨"A", 0, 0, "", "", false⟩]⟩

/-- A second such target. -/
def gameB : Game := ⟨"42", "Other Game", [⟨"B", 0, 0, "", "", false⟩]⟩

/-- A target whose single locked achievement is marked protected. -/
def gameProt : Game := ⟨"10", "Guarded", [⟨"P", 0, 0, "", "", true⟩]⟩

/-- A flat-export session whose stats were never received. -/
def manNoStats : Manager :=
  { emptyMan "700570" with
    hasRequestApi := true, hasRunCallbacks := true, hasSetApi := true,
    hasClearApi := true, hasStoreApi := true, hasShutdownApi := true }

/-- The same session after a (claimed) successful handshake. -/
def manReady : Manager := { manNoStats with userStatsReceived := true }

/-- A world in which the native set call reports failure. -/
def sysSetFail : Sys := { sysApi with setResult := fun _ => false }

/-- Classification of native backend calls made during cleanup. -/
def isNative : Ev → Bool
  | Ev.shutdown => true
  | Ev.releasePipe => true
  | _ => false

/-- A session state as left by a successful flat-export open. -/
def manShut : Manager := { emptyMan "700570" with hasShutdownApi := true }

/-- Session well-nesting check.  `wfAux t k` walks the event trace `t`
with `k` sessions currently in a non-closed state (0 or 1): a
`construct` event is admissible only when no session is open, a
`closed` event (cleanup returning) only when exactly one session is
open; any other event leaves the count unchanged.  The result is the
final open-session count, or `none` on a violation. -/
def wfAux : List Ev → Nat → Option Nat
  | [], k => some k
  | Ev.construct _ :: t, k => if k = 0 then wfAux t 1 else none
  | Ev.closed :: t, k => if k = 1 then wfAux t 0 else none
  | _ :: t, k => wfAux t k

/-- Events that neither construct a session nor complete a cleanup. -/
def isNeutral : Ev → Bool
  | Ev.construct _ => false
  | Ev.closed => false
  | _ => true

/-- Classification of native achievement-write (set/clear) calls. -/
def isSetClear : Ev → Bool
  | Ev.setApi _ => true
  | Ev.clearApi _ => true
  | Ev.setVt _ => true
  | Ev.clearVt _ => true
  | _ => false

/-- A world in which no candidate library ever loads. -/
def sysNoLoad : Sys := { sysApi with fsLoad := fun _ => false }

/-- A world in which the native shutdown call raises during cleanup. -/
def sysShutRaise : Sys := { sysApi with shutdownRaises := true }

/-- A concrete schema world: the installation resolves and every
schema file holds bytes that begin with the scanned marker pattern. -/
def ssEx : SchemaSys :=
  ⟨some ["C:", "Steam"],
   fun _ => some [1, 0, 0, 0, 1, 0, 0, 0, 0, 0, 0, 0, 0, 0, 0, 0,
                  0, 0, 0, 0, 0, 0, 0, 0, 0]⟩

/-! ### Claim C2 -/

/-- Claim C2, counterexample.  The claim says that calling the
achievement-write operation in any state other than StatsReady returns
a precondition failure and performs no native calls.  On the code,
with `user_stats_received` still false, `set_achievement` performs the
native set call and returns its (successful) result. -/
theorem C2_counterexample :
    manNoStats.userStatsReceived = false ∧
    (set_achievement sysApi manNoStats "A" true).1 = true ∧
    (set_achievement sysApi manNoStats "A" true).2 = [Ev.setApi "A"] := by
  refine ⟨rfl, rfl, rfl⟩

/-- Claim C2, amended: calling `set_achievement` while user stats have
not been received only logs a warning; its result and its native-call
trace are exactly those of the StatsReady case (the flag has no
behavioural effect). -/
theorem C2_theorem : ∀ (sys : Sys) (m : Manager) (a : String) (u : Bool),
    set_achievement sys { m with userStatsReceived := false } a u =
    set_achievement sys { m with userStatsReceived := true } a u := by
  intro sys m a u
  cases m
  rfl

/-! ### Claim C3 -/


/-- Claim C3, counterexample.  The claim says the apply operation calls
set/clear and then unconditionally calls `storeStats`, regardless of
the set result.  On the code, when the set call fails,
`unlock_achievement` returns false without ever calling
`store_stats`. -/
theorem C3_counterexample :
    manReady.userStatsReceived = true ∧
    (unlock_achievement sysSetFail manReady "A").2 = [Ev.setApi "A"] ∧
    Ev.store ∉ (unlock_achievement sysSetFail manReady "A").2 := by
  refine ⟨rfl, rfl, by decide⟩

/-- The set/clear trace of `set_achievement` never contains a
`store` event. -/
theorem set_achievement_no_store (sys : Sys) (m : Manager) (a : String) (u : Bool) :
    Ev.store ∉ (set_achievement sys m a u).2 := by
  unfold set_achievement
  split
  · split
    · simp
    · split <;> simp
  · split
    · split <;> simp
    · simp

/-- When a store function is bound, `store_stats` makes exactly the one
native store call. -/
theorem store_stats_trace (sys : Sys) (m : Manager)
    (h : (m.hasStoreApi || m.hasVt) = true) :
    (store_stats sys m).2 = [Ev.store] := by
  unfold store_stats
  rcases Bool.or_eq_true_iff.mp h with h1 | h1 <;> simp [h1]

/-- Claim C3, amended: `unlock_achievement` calls the backend set
first and calls `store_stats` only when that set call reported
success; on a failed set it returns failure and no store call is
made. -/
theorem C3_theorem : ∀ (sys : Sys) (m : Manager) (a : String),
    ((set_achievement sys m a true).1 = false →
      (unlock_achievement sys m a).1 = false ∧
      Ev.store ∉ (unlock_achievement sys m a).2) ∧
    ((set_achievement sys m a true).1 = true → (m.hasStoreApi || m.hasVt) = true →
      Ev.store ∈ (unlock_achievement sys m a).2) := by
  intro sys m a
  constructor
  · intro h
    unfold unlock_achievement
    simp only [h, Bool.false_eq_true, if_false]
    exact ⟨trivial, set_achievement_no_store sys m a true⟩
  · intro h hs
    unfold unlock_achievement
    simp only [h, if_true]
    rw [store_stats_trace sys m hs]
    simp

/-- Claim C3, witness: the amended theorem applied at the concrete
failing-set world. -/
theorem C3_witness :
    (unlock_achievement sysSetFail manReady "A").1 = false ∧
    Ev.store ∉ (unlock_achievement sysSetFail manReady "A").2 :=
  (C3_theorem sysSetFail manReady "A").1 rfl

/-! ### Claim C6 -/

/-- A target with no eligible achievement is skipped before any
session work. -/
theorem processGame_skip (sys : Sys) (sid : String) (g : Game)
    (cache : Option (List String)) (env : Option String)
    (h : (unlockableAchs g).isEmpty = true) :
    processGame sys sid g cache env = ⟨cache, env, 0, 0, 0, []⟩ := by
  unfold processGame
  split <;> simp [h]

/-- Claim C6: a target with an empty eligible change set (each
achievement already unlocked, or every locked one protected) is
skipped before any session work: no session construction, no
library-load, no native call, no environment write, and the batch
state is unchanged. -/
theorem C6_theorem : ∀ (sys : Sys) (sid : String) (g : Game)
    (cache : Option (List String)) (env : Option String),
    (unlockableAchs g).isEmpty = true →
    processGame sys sid g cache env = ⟨cache, env, 0, 0, 0, []⟩ := by
  intro sys sid g cache env h
  exact processGame_skip sys sid g cache env h

/-- Claim C6, witness: the theorem applied to a target whose only
locked achievement is protected, in the all-succeeding world. -/
theorem C6_witness :
    processGame sysApi "76561198195207346" gameProt none none =
      ⟨none, none, 0, 0, 0, []⟩ :=
  C6_theorem sysApi "76561198195207346" gameProt none none (by decide)

/-! ### Claim C7 -/



/-- Claim C7, counterexample.  The claim says a second `cleanup` on
the same session performs no further native or environment effects.
On the code, the bound function attributes survive cleanup, so the
second call repeats the native shutdown call. -/
theorem C7_counterexample :
    (cleanup sysApi manShut (some "700570")).1 = none ∧
    (cleanup sysApi manShut
        ((cleanup sysApi manShut (some "700570")).1)).2.1 =
      [Ev.shutdown, Ev.closed] ∧
    Ev.shutdown ∈ (cleanup sysApi manShut
        ((cleanup sysApi manShut (some "700570")).1)).2.1 := by
  refine ⟨rfl, rfl, by decide⟩

/-- Claim C7, amended: `cleanup` never raises to its caller (every
internal error is swallowed, the function always returns normally),
and a second call on the resulting state performs no further
environment effects and leaves the marker unchanged — but it is not a
native no-op: it repeats exactly the native shutdown/pipe-release
calls of the first invocation. -/
theorem C7_theorem : ∀ (sys : Sys) (m : Manager) (env : Option String),
    (cleanup sys m ((cleanup sys m env).1)).1 = (cleanup sys m env).1 ∧
    Ev.envClear ∉ (cleanup sys m ((cleanup sys m env).1)).2.1 ∧
    ((cleanup sys m ((cleanup sys m env).1)).2.1).filter isNative =
      ((cleanup sys m env).2.1).filter isNative := by
  intro sys m env
  cases env <;>
    cases hS : m.hasShutdownApi <;>
    cases hR : sys.shutdownRaises <;>
    cases hD : ((m.steamPipe != 0) && m.steamClientSet && m.hasReleaseFunc) <;>
    cases hRR : sys.releaseRaises <;>
    simp [cleanup, hS, hR, hD, hRR, isNative]

/-! ### Claim C9 -/

/-- The candidate scan returns the first candidate that exists and
loads. -/
theorem searchDll_eq_find (sys : Sys) :
    ∀ l : List (List String),
      (searchDll sys l).1 = l.find? (fun p => sys.fsExists p && sys.fsLoad p) := by
  intro l
  induction l with
  | nil => rfl
  | cons p ps ih =>
    unfold searchDll
    cases hE : sys.fsExists p with
    | true =>
      cases hL : sys.fsLoad p with
      | true => simp [List.find?, hE, hL]
      | false => simp [List.find?, hE, hL, ih]
    | false => simp [List.find?, hE, ih]

/-- Claim C9: the library locator probes the cached path from a prior
successful load first, then the ranked candidate list (working
directory, executable-adjacent bundle locations, script directory,
platform installation directory — in the order built by
`dllCandidates`), returns the first candidate that exists and loads
successfully, and caches the winner.  The hypothesis states the
filesystem fact that only existing files can be loaded (the cached
path is probed by a load attempt alone). -/
theorem C9_theorem : ∀ (sys : Sys) (steam : List String)
    (cache : Option (List String)),
    (∀ p, sys.fsLoad p = true → sys.fsExists p = true) →
    (loadDll sys steam cache).1 =
      (cache.toList ++ dllCandidates sys steam).find?
        (fun p => sys.fsExists p && sys.fsLoad p) ∧
    (loadDll sys steam cache).2.1 = (loadDll sys steam cache).1 := by
  intro sys steam cache hle
  cases cache with
  | none =>
    refine ⟨?_, ?_⟩
    · simp only [loadDll, Option.toList, List.nil_append]
      exact searchDll_eq_find sys (dllCandidates sys steam)
    · rfl
  | some c =>
    cases hL : sys.fsLoad c with
    | true =>
      refine ⟨?_, ?_⟩
      · have hE := hle c hL
        simp [loadDll, hL, Option.toList, List.find?, hE]
      · simp [loadDll, hL]
    | false =>
      refine ⟨?_, ?_⟩
      · simp only [loadDll, hL, Bool.false_eq_true, if_false, Option.toList,
          List.cons_append, List.nil_append, List.find?, hL, Bool.and_false]
        exact searchDll_eq_find sys (dllCandidates sys steam)
      · simp [loadDll, hL]

/-- Claim C9, witness: the theorem at the all-loadable world with an
empty cache; the first working-directory candidate wins and is
cached. -/
theorem C9_witness :
    (loadDll sysApi ["C:", "Steam"] none).1 =
      ((none : Option (List String)).toList
          ++ dllCandidates sysApi ["C:", "Steam"]).find?
        (fun p => sysApi.fsExists p && sysApi.fsLoad p) ∧
    (loadDll sysApi ["C:", "Steam"] none).2.1 =
      (loadDll sysApi ["C:", "Steam"] none).1 :=
  C9_theorem sysApi ["C:", "Steam"] none (fun _ _ => rfl)

/-! ### Claim C10 -/

/-- One position of the schema scan never extends the accumulator: the
achievement identifier is the empty string on every path. -/
theorem kvStep_eq (data : List Nat) (pos : Nat) (acc : List (String × Nat)) :
    kvStep data pos acc = acc := by
  unfold kvStep
  split
  · rfl
  · rfl

/-- The schema parser returns the empty schema on every input. -/
theorem read_kv_file_eq_nil (data : List Nat) : read_kv_file data = [] := by
  unfold read_kv_file
  generalize List.range (data.length - 20) = l
  induction l with
  | nil => rfl
  | cons p ps ih => rw [List.foldl_cons, kvStep_eq]; exact ih

/-- In a cache whose every schema is empty, any lookup yields the empty
schema. -/
theorem lookup_nil_of_all_nil {α : Type} [BEq α]
    (cache : List (α × List (String × Nat)))
    (h : ∀ e ∈ cache, e.2 = ([] : List (String × Nat))) (k : α)
    (v : List (String × Nat)) (hl : cache.lookup k = some v) : v = [] := by
  induction cache with
  | nil => simp [List.lookup] at hl
  | cons e rest ih =>
    rw [List.lookup] at hl
    split at hl
    · cases hl
      exact h e (List.mem_cons_self e rest)
    · exact ih (fun x hx => h x (List.mem_cons_of_mem e hx)) hl

/-- Claim C10: protection detection is vacuous.  The binary schema
scan never produces an entry (the achievement identifier is never
assigned), so `is_achievement_protected` answers false for every
input (from any cache state the reader can reach, i.e. one whose
entries all came from the scan), the inventory fetcher marks every
achievement record unprotected, and the orchestrator's eligibility
filter therefore never drops a locked achievement as protected. -/
theorem C10_theorem :
    (∀ data, read_kv_file data = []) ∧
    (∀ (ss : SchemaSys) (cache : List (String × List (String × Nat)))
        (appId achId : String),
      (∀ e ∈ cache, e.2 = ([] : List (String × Nat))) →
      (is_achievement_protected ss cache appId achId).1 = false ∧
      (∀ e ∈ (is_achievement_protected ss cache appId achId).2,
        e.2 = ([] : List (String × Nat)))) ∧
    (∀ a, (mkAchievementData a).protectedFlag = false) ∧
    (∀ g : Game, (∀ a ∈ g.achievements, a.protectedFlag = false) →
      unlockableAchs g = lockedAchs g) := by
  refine ⟨read_kv_file_eq_nil, ?_, fun _ => rfl, ?_⟩
  · intro ss cache appId achId h
    unfold is_achievement_protected
    cases ss.steamPath with
    | none => exact ⟨rfl, h⟩
    | some sp =>
      have hhit : (match cache.lookup appId with
          | some schema =>
            match schema.lookup achId with
            | some perm => some ((Nat.land perm 3) != 0)
            | none => none
          | none => none) = (none : Option Bool) := by
        cases hl : cache.lookup appId with
        | none => rfl
        | some schema =>
          have := lookup_nil_of_all_nil cache h appId schema hl
          subst this
          rfl
      simp only [hhit]
      cases hf : ss.schemaBytes (schemaFilePath sp appId) with
      | none => exact ⟨rfl, h⟩
      | some data =>
        simp only [read_kv_file_eq_nil data, List.lookup]
        refine ⟨trivial, ?_⟩
        intro e he
        rcases List.mem_cons.mp he with he1 | he2
        · rw [he1]
        · exact h e he2
  · intro g hg
    unfold unlockableAchs
    apply List.filter_eq_self.mpr
    intro a ha
    have : a ∈ g.achievements := by
      unfold lockedAchs at ha
      exact List.mem_of_mem_filter ha
    rw [hg a this]
    rfl


/-- Claim C10, witness: the theorem applied at a concrete schema file
whose bytes contain the marker pattern, a cache already holding an
(empty) schema for another app, and a concrete inventory record and
game. -/
theorem C10_witness :
    read_kv_file [1, 0, 0, 0, 2, 0, 0, 0, 9, 9, 9, 9, 9, 9, 9, 9, 9, 9,
      9, 9, 9, 9, 9, 9, 9] = [] ∧
    (is_achievement_protected ssEx [("1", [])] "700570" "A").1 = false ∧
    (mkAchievementData ⟨"A", 0, 0, "", ""⟩).protectedFlag = false ∧
    unlockableAchs gameA = lockedAchs gameA :=
  ⟨C10_theorem.1 _,
   ((C10_theorem.2.1 ssEx [("1", [])] "700570" "A") (by decide)).1,
   C10_theorem.2.2.1 ⟨"A", 0, 0, "", ""⟩,
   C10_theorem.2.2.2 gameA (by decide)⟩

/-! ### Trace classification lemmas -/

theorem replicate_all (P : Ev → Bool) (x : Ev) (h : P x = true) :
    ∀ n, (List.replicate n x).all P = true := by
  intro n
  induction n with
  | zero => rfl
  | succ n ih => simp [List.replicate, h, ih]

theorem searchDll_all (sys : Sys) (P : Ev → Bool)
    (hl : ∀ p, P (Ev.loadTry p) = true) :
    ∀ l, ((searchDll sys l).2).all P = true := by
  intro l
  induction l with
  | nil => rfl
  | cons p ps ih =>
    unfold searchDll
    cases hE : sys.fsExists p with
    | true =>
      cases hL : sys.fsLoad p with
      | true => simp [hE, hL, hl]
      | false => simp [hE, hL, hl, ih]
    | false => simp [hE, ih]

theorem loadDll_all (sys : Sys) (steam : List String)
    (cache : Option (List String)) (P : Ev → Bool)
    (hl : ∀ p, P (Ev.loadTry p) = true) :
    ((loadDll sys steam cache).2.2).all P = true := by
  cases cache with
  | none => exact searchDll_all sys P hl (dllCandidates sys steam)
  | some c =>
    cases hL : sys.fsLoad c with
    | true => simp [loadDll, hL, hl]
    | false =>
      simp only [loadDll, hL, Bool.false_eq_true, if_false, List.all_cons,
        Bool.and_eq_true]
      exact ⟨hl c, searchDll_all sys P hl (dllCandidates sys steam)⟩

theorem cleanup_all (sys : Sys) (m : Manager) (env : Option String)
    (P : Ev → Bool) (h1 : P Ev.shutdown = true) (h2 : P Ev.releasePipe = true)
    (h3 : P Ev.envClear = true) (h4 : P Ev.closed = true) :
    ((cleanup sys m env).2.1).all P = true := by
  cases env <;>
    cases hS : m.hasShutdownApi <;>
    cases hR : sys.shutdownRaises <;>
    cases hD : ((m.steamPipe != 0) && m.steamClientSet && m.hasReleaseFunc) <;>
    cases hRR : sys.releaseRaises <;>
    simp [cleanup, hS, hR, hD, hRR, h1, h2, h3, h4]

theorem request_all (sys : Sys) (m : Manager) (sid : String) (P : Ev → Bool)
    (ha : ∀ s, P (Ev.requestApi s) = true)
    (hv : ∀ s, P (Ev.requestVt s) = true) (hc : P Ev.runCallbacks = true) :
    ((request_user_stats sys m sid).2.2).all P = true := by
  unfold request_user_stats
  split
  · split
    · simp [ha]
    · split <;> simp [ha, hc, replicate_all P Ev.runCallbacks hc]
  · split
    · split <;> simp [hv]
    · rfl

theorem set_achievement_all (sys : Sys) (m : Manager) (a : String) (u : Bool)
    (P : Ev → Bool) (h1 : ∀ s, P (Ev.setApi s) = true)
    (h2 : ∀ s, P (Ev.clearApi s) = true) (h3 : ∀ s, P (Ev.setVt s) = true)
    (h4 : ∀ s, P (Ev.clearVt s) = true) :
    ((set_achievement sys m a u).2).all P = true := by
  unfold set_achievement
  split
  · split
    · simp [h1]
    · split <;> simp [h2]
  · split
    · split <;> simp [h3, h4]
    · rfl

theorem store_stats_all (sys : Sys) (m : Manager) (P : Ev → Bool)
    (h : P Ev.store = true) : ((store_stats sys m).2).all P = true := by
  unfold store_stats
  split
  · simp [h]
  · split <;> simp [h]

theorem unlock_all (sys : Sys) (m : Manager) (a : String) (P : Ev → Bool)
    (h1 : ∀ s, P (Ev.setApi s) = true) (h2 : ∀ s, P (Ev.clearApi s) = true)
    (h3 : ∀ s, P (Ev.setVt s) = true) (h4 : ∀ s, P (Ev.clearVt s) = true)
    (h5 : P Ev.store = true) :
    ((unlock_achievement sys m a).2).all P = true := by
  unfold unlock_achievement
  dsimp only
  split
  · simp only [List.all_append, Bool.and_eq_true]
    exact ⟨set_achievement_all sys m a true P h1 h2 h3 h4,
      store_stats_all sys m P h5⟩
  · exact set_achievement_all sys m a true P h1 h2 h3 h4

theorem unlockLoop_all (sys : Sys) (m : Manager) (P : Ev → Bool)
    (h1 : ∀ s, P (Ev.setApi s) = true) (h2 : ∀ s, P (Ev.clearApi s) = true)
    (h3 : ∀ s, P (Ev.setVt s) = true) (h4 : ∀ s, P (Ev.clearVt s) = true)
    (h5 : P Ev.store = true) :
    ∀ l, ((unlockLoop sys m l).2).all P = true := by
  intro l
  induction l with
  | nil => rfl
  | cons a rest ih =>
    unfold unlockLoop
    simp only [List.all_append, Bool.and_eq_true]
    exact ⟨unlock_all sys m a.apiname P h1 h2 h3 h4 h5, ih⟩

theorem clientFinish_all (sys : Sys) (m0 : Manager)
    (cache : Option (List String)) (lt : List Ev) (env : Option String)
    (a : String) (P : Ev → Bool) (he : ∀ s, P (Ev.envSet s) = true)
    (hlt : lt.all P = true) (h1 : P Ev.shutdown = true)
    (h2 : P Ev.releasePipe = true) (h3 : P Ev.envClear = true)
    (h4 : P Ev.closed = true) :
    ((clientFinish sys m0 cache lt env a).trace).all P = true := by
  unfold clientFinish
  dsimp only
  split
  · simp only [List.all_cons, Bool.and_eq_true]
    exact ⟨he a, hlt⟩
  · simp only [List.all_cons, List.all_append, Bool.and_eq_true]
    exact ⟨he a, hlt, cleanup_all sys _ env P h1 h2 h3 h4⟩

theorem initManager_all (sys : Sys) (a : String)
    (cache : Option (List String)) (P : Ev → Bool)
    (he : ∀ s, P (Ev.envSet s) = true) (hl : ∀ p, P (Ev.loadTry p) = true)
    (h1 : P Ev.shutdown = true) (h2 : P Ev.releasePipe = true)
    (h3 : P Ev.envClear = true) (h4 : P Ev.closed = true) :
    ((initManager sys a cache).trace).all P = true := by
  unfold initManager
  dsimp only
  split
  · simp only [List.all_cons, Bool.and_eq_true]
    exact ⟨he a, cleanup_all sys _ _ P h1 h2 h3 h4⟩
  · split
    · simp only [List.all_cons, List.all_append, Bool.and_eq_true]
      exact ⟨he a, loadDll_all sys _ cache P hl,
        cleanup_all sys _ _ P h1 h2 h3 h4⟩
    · split
      · split
        · simp only [List.all_cons, Bool.and_eq_true]
          exact ⟨he a, loadDll_all sys _ cache P hl⟩
        · simp only [List.all_cons, List.all_append, Bool.and_eq_true]
          exact ⟨he a, loadDll_all sys _ cache P hl,
            cleanup_all sys _ _ P h1 h2 h3 h4⟩
        · exact clientFinish_all sys _ _ _ _ a P he
            (loadDll_all sys _ cache P hl) h1 h2 h3 h4
      · exact clientFinish_all sys _ _ _ _ a P he
          (loadDll_all sys _ cache P hl) h1 h2 h3 h4

/-! ### Claim C1 -/

/-- Every run of `processGame` either reports the target successful or
performs no native set/clear call at all. -/
theorem processGame_writes (sys : Sys) (sid : String) (g : Game)
    (cache : Option (List String)) (env : Option String) :
    (processGame sys sid g cache env).succ = 1 ∨
    ((processGame sys sid g cache env).trace).all
      (fun e => !isSetClear e) = true := by
  unfold processGame
  dsimp only
  split
  · exact Or.inr rfl
  · split
    · exact Or.inr rfl
    · split
      · refine Or.inr ?_
        rw [List.all_cons, Bool.and_eq_true]
        refine ⟨rfl, ?_⟩
        exact initManager_all sys _ cache (fun e => !isSetClear e)
          (fun _ => rfl) (fun _ => rfl) rfl rfl rfl rfl
      · split
        · exact Or.inl rfl
        · refine Or.inr ?_
          rw [List.all_cons, Bool.and_eq_true]
          refine ⟨rfl, ?_⟩
          rw [List.all_append, Bool.and_eq_true]
          refine ⟨?_, cleanup_all sys _ _ (fun e => !isSetClear e) rfl rfl rfl rfl⟩
          rw [List.all_append, Bool.and_eq_true]
          exact ⟨initManager_all sys _ cache (fun e => !isSetClear e)
              (fun _ => rfl) (fun _ => rfl) rfl rfl rfl rfl,
            request_all sys _ sid (fun e => !isSetClear e)
              (fun _ => rfl) (fun _ => rfl) rfl⟩

/-- Claim C1, counterexample.  The claim says that when the handshake
deadline expires without the backend ever signaling readiness, the
caller sees a StatsUnavailable failure and no set/clear call follows.
On the code, with a backend that never becomes ready
(`readyAt = none`), the handshake still reports success, the target is
not marked failed, and a native set call is made. -/
theorem C1_counterexample :
    sysApi.readyAt = none ∧
    (processGame sysApi "76561198195207346" gameA none none).fail = 0 ∧
    (processGame sysApi "76561198195207346" gameA none none).succ = 1 ∧
    Ev.setApi "A" ∈ (processGame sysApi "76561198195207346" gameA none none).trace := by
  refine ⟨rfl, rfl, rfl, by decide⟩

/-- Claim C1, amended: the handshake never detects a timeout.  When the
request is issued successfully, `request_user_stats` reports success
and marks stats received regardless of backend readiness (the deadline
merely bounds the pump loop); it reports failure only when issuing the
request itself fails (a zero flat-export call handle, or a falsy
vtable request); and a target whose session reports no success — in
particular one whose handshake returned failure — has no native
set/clear call in its trace. -/
theorem C1_theorem :
    (∀ (sys : Sys) (m : Manager) (sid : String),
      sys.readyAt = none → m.hasRequestApi = true → sys.requestApiHandle ≠ 0 →
      (request_user_stats sys m sid).1 = true ∧
      (request_user_stats sys m sid).2.1.userStatsReceived = true) ∧
    (∀ (sys : Sys) (m : Manager) (sid : String),
      (request_user_stats sys m sid).1 = false →
      (m.hasRequestApi = true ∧ sys.requestApiHandle = 0) ∨
      (m.hasRequestApi = false ∧ m.hasVt = true ∧ sys.vtRequestOk = false)) ∧
    (∀ (sys : Sys) (sid : String) (g : Game) (cache : Option (List String))
        (env : Option String),
      (processGame sys sid g cache env).succ = 0 →
      ((processGame sys sid g cache env).trace).all
        (fun e => !isSetClear e) = true) := by
  refine ⟨?_, ?_, ?_⟩
  · intro sys m sid _ hA hH
    unfold request_user_stats
    have hH2 : (sys.requestApiHandle == 0) = false := by
      simpa using hH
    simp [hA, hH2]
  · intro sys m sid h
    unfold request_user_stats at h
    cases hA : m.hasRequestApi with
    | true =>
      simp only [hA, if_true] at h
      cases hH : (sys.requestApiHandle == 0) with
      | true => exact Or.inl ⟨rfl, by simpa using hH⟩
      | false => simp [hH] at h
    | false =>
      simp only [hA, Bool.false_eq_true, if_false] at h
      cases hV : m.hasVt with
      | true =>
        simp only [hV, if_true] at h
        cases hO : sys.vtRequestOk with
        | true => simp [hO] at h
        | false => exact Or.inr ⟨rfl, rfl, rfl⟩
      | false => simp [hV] at h
  · intro sys sid g cache env h
    rcases processGame_writes sys sid g cache env with h1 | h1
    · rw [h] at h1
      exact absurd h1 (by decide)
    · exact h1

/-- Claim C1, witness: the never-ready world still yields a successful
handshake, and a world whose request issuance fails (zero call handle)
produces a target run with no native set/clear call. -/
theorem C1_witness :
    (request_user_stats sysApi manNoStats "76561198195207346").1 = true ∧
    ((processGame { sysApi with requestApiHandle := 0 } "76561198195207346"
        gameA none none).trace).all (fun e => !isSetClear e) = true :=
  ⟨(C1_theorem.1 sysApi manNoStats "76561198195207346" rfl rfl
      (by decide)).1,
   C1_theorem.2.2 { sysApi with requestApiHandle := 0 } "76561198195207346"
      gameA none none rfl⟩

/-! ### Claim C4 -/

/-- When no path loads, the candidate scan finds nothing. -/
theorem searchDll_none (sys : Sys) (hf : ∀ p, sys.fsLoad p = false) :
    ∀ l, (searchDll sys l).1 = none := by
  intro l
  induction l with
  | nil => rfl
  | cons p ps ih =>
    unfold searchDll
    cases hE : sys.fsExists p with
    | true => simp [hE, hf p, ih]
    | false => simp [hE, ih]

/-- When no path loads, the whole loader fails. -/
theorem loadDll_none (sys : Sys) (steam : List String)
    (cache : Option (List String)) (hf : ∀ p, sys.fsLoad p = false) :
    (loadDll sys steam cache).1 = none := by
  cases cache with
  | none => exact searchDll_none sys hf (dllCandidates sys steam)
  | some c => simp [loadDll, hf c, searchDll_none sys hf]

/-- When no path loads, session construction fails. -/
theorem initManager_noload (sys : Sys) (a : String)
    (cache : Option (List String)) (hf : ∀ p, sys.fsLoad p = false) :
    (initManager sys a cache).man = none := by
  unfold initManager
  dsimp only
  split
  · rfl
  · rw [loadDll_none sys _ cache hf]

/-- An eligible target has a nonempty achievement list. -/
theorem achs_nonempty (g : Game) (h : (unlockableAchs g).isEmpty = false) :
    g.achievements.isEmpty = false := by
  cases hA : g.achievements.isEmpty with
  | false => rfl
  | true =>
    have h2 : g.achievements = [] := by
      cases hL : g.achievements with
      | nil => rfl
      | cons x xs => rw [hL] at hA; simp [List.isEmpty] at hA
    have : (unlockableAchs g).isEmpty = true := by
      simp [unlockableAchs, lockedAchs, h2]
    rw [this] at h
    cases h

/-- When no path loads, an eligible target is recorded failed and the
session-construction attempt is visible in its trace. -/
theorem processGame_noload (sys : Sys) (sid : String) (g : Game)
    (cache : Option (List String)) (env : Option String)
    (hf : ∀ p, sys.fsLoad p = false)
    (hg : (unlockableAchs g).isEmpty = false) :
    (processGame sys sid g cache env).succ = 0 ∧
    (processGame sys sid g cache env).unlocked = 0 ∧
    (processGame sys sid g cache env).fail = 1 ∧
    Ev.construct g.appid ∈ (processGame sys sid g cache env).trace := by
  have hach := achs_nonempty g hg
  unfold processGame
  dsimp only
  simp only [hach, Bool.false_eq_true, if_false, hg]
  rw [initManager_noload sys _ cache hf]
  exact ⟨rfl, rfl, rfl, List.mem_cons_self _ _⟩

/-- Claim C4, counterexample.  The claim says a LibraryNotFound
failure stops the whole batch before the remaining targets.  On the
code, with a world in which no candidate ever loads, the orchestrator
records the first target failed and still constructs a session attempt
for the second target. -/
theorem C4_counterexample :
    sysNoLoad.fsLoad = (fun _ => false) ∧
    (process_all_games sysNoLoad "76561198195207346" [gameA, gameB]).1.fail = 2 ∧
    Ev.construct "700570" ∈
      (process_all_games sysNoLoad "76561198195207346" [gameA, gameB]).2.2.2 ∧
    Ev.construct "42" ∈
      (process_all_games sysNoLoad "76561198195207346" [gameA, gameB]).2.2.2 := by
  refine ⟨rfl, rfl, by decide, by decide⟩

/-- Claim C4, amended: a LibraryNotFound failure is fatal only to the
current target.  When no candidate ever loads, every eligible target
is recorded failed (no successes, no unlocks) and the orchestrator
still constructs a session attempt for every eligible target,
including all targets after the first failure. -/
theorem C4_theorem : ∀ (sys : Sys) (sid : String) (games : List Game)
    (cache : Option (List String)) (env : Option String),
    sys.fsLoad = (fun _ => false) →
    (runGames sys sid games cache env).1.succ = 0 ∧
    (runGames sys sid games cache env).1.unlocked = 0 ∧
    (runGames sys sid games cache env).1.fail =
      (games.filter (fun g => !(unlockableAchs g).isEmpty)).length ∧
    (∀ g ∈ games, (unlockableAchs g).isEmpty = false →
      Ev.construct g.appid ∈ (runGames sys sid games cache env).2.2.2) := by
  intro sys sid games
  induction games with
  | nil =>
    intro cache env _
    refine ⟨rfl, rfl, rfl, ?_⟩
    intro g hg
    cases hg
  | cons g gs ih =>
    intro cache env hf
    have hf' : ∀ p, sys.fsLoad p = false := fun p => congrFun hf p
    obtain ⟨ih1, ih2, ih3, ih4⟩ :=
      ih (processGame sys sid g cache env).cache
        (processGame sys sid g cache env).env hf
    cases hg : (unlockableAchs g).isEmpty with
    | true =>
      have hskip := processGame_skip sys sid g cache env hg
      refine ⟨?_, ?_, ?_, ?_⟩
      · show (processGame sys sid g cache env).succ + _ = 0
        rw [hskip] at ih1 ⊢
        simpa using ih1
      · show (processGame sys sid g cache env).unlocked + _ = 0
        rw [hskip] at ih2 ⊢
        simpa using ih2
      · show (processGame sys sid g cache env).fail + _ = _
        rw [List.filter_cons]
        simp only [hg, Bool.not_true, Bool.false_eq_true, if_false]
        rw [hskip] at ih3 ⊢
        simpa using ih3
      · intro g2 hg2 hgne
        rcases List.mem_cons.mp hg2 with h2 | h2
        · rw [h2, hg] at hgne
          cases hgne
        · show Ev.construct g2.appid ∈ (processGame sys sid g cache env).trace ++ _
          rw [hskip] at ih4 ⊢
          exact List.mem_append.mpr (Or.inr (ih4 g2 h2 hgne))
    | false =>
      obtain ⟨p1, p2, p3, p4⟩ := processGame_noload sys sid g cache env hf' hg
      refine ⟨?_, ?_, ?_, ?_⟩
      · show (processGame sys sid g cache env).succ + _ = 0
        rw [p1, ih1]
      · show (processGame sys sid g cache env).unlocked + _ = 0
        rw [p2, ih2]
      · show (processGame sys sid g cache env).fail + _ = _
        rw [List.filter_cons]
        simp only [hg, Bool.not_false, if_true, List.length_cons, p3, ih3]
        omega
      · intro g2 hg2 hgne
        rcases List.mem_cons.mp hg2 with h2 | h2
        · subst h2
          exact List.mem_append.mpr (Or.inl p4)
        · exact List.mem_append.mpr (Or.inr (ih4 g2 h2 hgne))

/-- Claim C4, witness: the amended theorem at the no-load world and a
two-target batch; both targets fail and the second target's session
attempt still happens. -/
theorem C4_witness :
    (runGames sysNoLoad "76561198195207346" [gameA, gameB] none none).1.fail =
      ([gameA, gameB].filter (fun g => !(unlockableAchs g).isEmpty)).length ∧
    Ev.construct gameB.appid ∈
      (runGames sysNoLoad "76561198195207346" [gameA, gameB] none none).2.2.2 :=
  ⟨(C4_theorem sysNoLoad "76561198195207346" [gameA, gameB] none none rfl).2.2.1,
   (C4_theorem sysNoLoad "76561198195207346" [gameA, gameB] none none rfl).2.2.2
     gameB (by decide) (by decide)⟩

/-! ### Claim C8 -/

/-- When no cleanup step raises, cleanup always clears the marker. -/
theorem cleanup_env_noraise (sys : Sys) (m : Manager) (env : Option String)
    (hS : sys.shutdownRaises = false) (hR : sys.releaseRaises = false) :
    (cleanup sys m env).1 = none := by
  cases env <;> simp [cleanup, hS, hR]

/-- A failing constructor leaves the marker cleared, provided its
cleanup did not raise. -/
theorem clientFinish_env (sys : Sys) (m0 : Manager)
    (cache : Option (List String)) (lt : List Ev) (env : Option String)
    (a : String) (hS : sys.shutdownRaises = false)
    (hR : sys.releaseRaises = false)
    (h : (clientFinish sys m0 cache lt env a).man = none) :
    (clientFinish sys m0 cache lt env a).env = none := by
  unfold clientFinish at h ⊢
  dsimp only at h ⊢
  cases hr : (clientApproach sys m0).2 with
  | true => simp [hr] at h
  | false =>
    simp only [hr, Bool.false_eq_true, if_false]
    exact cleanup_env_noraise sys _ env hS hR

/-- A failing constructor leaves the marker cleared, provided its
cleanup did not raise. -/
theorem initManager_env (sys : Sys) (a : String)
    (cache : Option (List String)) (hS : sys.shutdownRaises = false)
    (hR : sys.releaseRaises = false)
    (h : (initManager sys a cache).man = none) :
    (initManager sys a cache).env = none := by
  unfold initManager at h ⊢
  dsimp only at h ⊢
  cases hsp : sys.steamPath with
  | none =>
    exact cleanup_env_noraise sys _ _ hS hR
  | some steam =>
    simp only [hsp] at h
    cases hld : (loadDll sys steam cache).1 with
    | none =>
      simp only [hld] at h ⊢
      exact cleanup_env_noraise sys _ _ hS hR
    | some p =>
      simp only [hld] at h ⊢
      cases hct : p.contains "steam_api64.dll" with
      | true =>
        simp only [hct, if_true] at h ⊢
        cases hap : (apiApproach sys (emptyMan a)).2 with
        | none =>
          simp only [hap] at h ⊢
          exact clientFinish_env sys _ _ _ _ a hS hR h
        | some b =>
          cases b with
          | true => simp [hap] at h
          | false =>
            simp only [hap] at h ⊢
            exact cleanup_env_noraise sys _ _ hS hR
      | false =>
        simp only [hct, Bool.false_eq_true, if_false] at h ⊢
        exact clientFinish_env sys _ _ _ _ a hS hR h

/-- Claim C8, counterexample.  The claim says the marker is never left
set after a session ends.  On the code, when the native shutdown call
raises during cleanup, the error is swallowed before the marker
deletion, so after the session ends the marker is still set. -/
theorem C8_counterexample :
    sysShutRaise.shutdownRaises = true ∧
    (processGame sysShutRaise "76561198195207346" gameA none none).env =
      some "700570" ∧
    Ev.closed ∈ (processGame sysShutRaise "76561198195207346" gameA none none).trace := by
  refine ⟨rfl, rfl, by decide⟩

/-- Claim C8, amended: the marker is set as the very first step of the
open sequence, and after a session for an eligible target ends — by
success, open failure, or handshake failure — the marker is cleared,
provided no cleanup step preceding the marker deletion raised (a
swallowed native shutdown/pipe-release error can leave it set). -/
theorem C8_theorem :
    (∀ (sys : Sys) (a : String) (cache : Option (List String)),
      ((initManager sys a cache).trace).head? = some (Ev.envSet a)) ∧
    (∀ (sys : Sys) (sid : String) (g : Game) (cache : Option (List String))
        (env : Option String),
      sys.shutdownRaises = false → sys.releaseRaises = false →
      (unlockableAchs g).isEmpty = false →
      (processGame sys sid g cache env).env = none) := by
  constructor
  · intro sys a cache
    unfold initManager clientFinish
    dsimp only
    split
    · rfl
    · split
      · rfl
      · split
        · split
          · rfl
          · rfl
          · split
            · rfl
            · rfl
        · split
          · rfl
          · rfl
  · intro sys sid g cache env hS hR hg
    have hach := achs_nonempty g hg
    unfold processGame
    dsimp only
    simp only [hach, Bool.false_eq_true, if_false, hg]
    generalize hman : (initManager sys g.appid cache).man = mres
    cases mres with
    | none =>
      dsimp only
      exact initManager_env sys g.appid cache hS hR hman
    | some m =>
      dsimp only
      split
      · exact cleanup_env_noraise sys _ _ hS hR
      · exact cleanup_env_noraise sys _ _ hS hR

/-- Claim C8, witness: the amended theorem at the all-succeeding
world. -/
theorem C8_witness :
    ((initManager sysApi "700570" none).trace).head? =
      some (Ev.envSet "700570") ∧
    (processGame sysApi "76561198195207346" gameA none none).env = none :=
  ⟨C8_theorem.1 sysApi "700570" none,
   C8_theorem.2 sysApi "76561198195207346" gameA none none rfl rfl (by decide)⟩

/-! ### Claim C5 -/

theorem wfAux_append : ∀ (a b : List Ev) (k : Nat),
    wfAux (a ++ b) k = (wfAux a k).bind (fun j => wfAux b j) := by
  intro a
  induction a with
  | nil => intro b k; rfl
  | cons e t ih =>
    intro b k
    cases e <;> by_cases hk0 : k = 0 <;> by_cases hk1 : k = 1 <;>
      simp [wfAux, hk0, hk1, ih]

theorem wfAux_neutral : ∀ (t : List Ev) (k : Nat),
    t.all isNeutral = true → wfAux t k = some k := by
  intro t
  induction t with
  | nil => intro k _; rfl
  | cons e r ih =>
    intro k h
    rw [List.all_cons, Bool.and_eq_true] at h
    cases e <;> first
      | exact ih k h.2
      | simp [isNeutral] at h

/-- Every cleanup trace closes exactly the one open session. -/
theorem wfAux_cleanup (sys : Sys) (m : Manager) (env : Option String) :
    wfAux ((cleanup sys m env).2.1) 1 = some 0 := by
  cases env <;>
    cases hS : m.hasShutdownApi <;>
    cases hR : sys.shutdownRaises <;>
    cases hD : ((m.steamPipe != 0) && m.steamClientSet && m.hasReleaseFunc) <;>
    cases hRR : sys.releaseRaises <;>
    simp [cleanup, hS, hR, hD, hRR, wfAux]

/-- A failing constructor has already closed its session; a successful
one leaves it open. -/
theorem wfAux_clientFinish (sys : Sys) (m0 : Manager)
    (cache : Option (List String)) (lt : List Ev) (env : Option String)
    (a : String) (hlt : lt.all isNeutral = true) :
    wfAux ((clientFinish sys m0 cache lt env a).trace) 1 =
      some (match (clientFinish sys m0 cache lt env a).man with
        | none => 0
        | some _ => 1) := by
  unfold clientFinish
  dsimp only
  split
  · simp only [wfAux]
    rw [wfAux_neutral _ 1 hlt]
  · simp only [wfAux, wfAux_append]
    rw [wfAux_neutral _ 1 hlt]
    simp only [Option.some_bind]
    rw [wfAux_cleanup]

/-- A failing constructor has already closed its session; a successful
one leaves it open. -/
theorem wfAux_init (sys : Sys) (a : String) (cache : Option (List String)) :
    wfAux ((initManager sys a cache).trace) 1 =
      some (match (initManager sys a cache).man with
        | none => 0
        | some _ => 1) := by
  unfold initManager
  dsimp only
  split
  · simp only [wfAux]
    simp
  · split
    · simp only [wfAux, wfAux_append]
      rw [wfAux_neutral _ 1 (loadDll_all sys _ cache isNeutral (fun _ => rfl))]
      simp only [Option.some_bind]
      simp
    · split
      · split
        · simp only [wfAux]
          rw [wfAux_neutral _ 1 (loadDll_all sys _ cache isNeutral (fun _ => rfl))]
        · simp only [wfAux, wfAux_append]
          rw [wfAux_neutral _ 1 (loadDll_all sys _ cache isNeutral (fun _ => rfl))]
          simp only [Option.some_bind]
          rw [wfAux_cleanup]
        · exact wfAux_clientFinish sys _ _ _ _ a
            (loadDll_all sys _ cache isNeutral (fun _ => rfl))
      · exact wfAux_clientFinish sys _ _ _ _ a
          (loadDll_all sys _ cache isNeutral (fun _ => rfl))

/-- Each per-target run is a well-nested block: it opens at most one
session and every opened session is closed within the block. -/
theorem wfAux_processGame (sys : Sys) (sid : String) (g : Game)
    (cache : Option (List String)) (env : Option String) :
    wfAux ((processGame sys sid g cache env).trace) 0 = some 0 := by
  have hinit := wfAux_init sys g.appid cache
  unfold processGame
  dsimp only
  split
  · rfl
  · split
    · rfl
    · split
      · rename_i heq
        rw [heq] at hinit
        simp only [wfAux]
        simpa using hinit
      · rename_i m heq
        rw [heq] at hinit
        split
        · simp only [wfAux, wfAux_append]
          rw [hinit]
          simp only [Option.some_bind]
          rw [wfAux_neutral _ 1 (request_all sys _ sid isNeutral
            (fun _ => rfl) (fun _ => rfl) rfl)]
          simp only [Option.some_bind]
          rw [wfAux_neutral _ 1 (unlockLoop_all sys _ isNeutral
            (fun _ => rfl) (fun _ => rfl) (fun _ => rfl) (fun _ => rfl) rfl _)]
          simp only [Option.some_bind]
          rw [wfAux_cleanup]
          simp
        · simp only [wfAux, wfAux_append]
          rw [hinit]
          simp only [Option.some_bind]
          rw [wfAux_neutral _ 1 (request_all sys _ sid isNeutral
            (fun _ => rfl) (fun _ => rfl) rfl)]
          simp only [Option.some_bind]
          rw [wfAux_cleanup]
          simp

/-- The whole batch trace is well-nested from an empty initial
state. -/
theorem wfAux_runGames (sys : Sys) (sid : String) :
    ∀ (games : List Game) (cache : Option (List String)) (env : Option String),
      wfAux ((runGames sys sid games cache env).2.2.2) 0 = some 0 := by
  intro games
  induction games with
  | nil => intro cache env; rfl
  | cons g gs ih =>
    intro cache env
    unfold runGames
    dsimp only
    rw [wfAux_append, wfAux_processGame]
    simp only [Option.some_bind]
    exact ih _ _

/-- Claim C5: during a batch run at most one session is ever in a
non-closed state, and session N+1 is constructed only after session
N's cleanup has returned — including when session N ends by an error.
Formally, the batch event trace passes the well-nesting check
`wfAux · 0 = some 0`: every `construct` event occurs with zero
sessions open, every cleanup completion with exactly one, and the run
ends with zero sessions open. -/
theorem C5_theorem : ∀ (sys : Sys) (sid : String) (games : List Game),
    wfAux ((process_all_games sys sid games).2.2.2) 0 = some 0 := by
  intro sys sid games
  exact wfAux_runGames sys sid games none none

end SteamAU
